import Mathlib

/-!
Verification of the rtlsdr-radio frontend client logic.

The definitions below are shallow embeddings of the JavaScript functions in
the repository (the API client `lib/api.js`, the `RadioApp` component, the
`useStations` / `useDABMetadata` hooks, the `BottomBar` and `SignalQuality`
components).  JavaScript values flowing through those functions are modelled
explicitly: JSON documents as the inductive `JsonVal`, absent or `undefined`
fields as `Option`, the relevant notion of JS truthiness for strings as
`jsTruthyStr`, numbers as rationals.  Effects (HTTP calls, timers, audio
elements) are modelled by recording the actions a handler performs in its
result, or by explicit event traces for the polling hooks.
-/

/-- A JSON value, as produced by `res.json()` and consumed by the client. -/
inductive JsonVal where
  | nul
  | boolean (b : Bool)
  | num (q : ℚ)
  | str (s : String)
  | arr (elems : List JsonVal)
  | obj (fields : List (String × JsonVal))

mutual

/-- Model of `JSON.stringify` on defined JSON values (never the empty string). -/
def stringify : JsonVal → String
  | .nul => "null"
  | .boolean true => "true"
  | .boolean false => "false"
  | .num q => toString q
  | .str s => "\"" ++ s ++ "\""
  | .arr elems => "[" ++ stringifyArr elems ++ "]"
  | .obj fields => "\x7b" ++ stringifyObj fields ++ "\x7d"

/-- Comma-separated serialisation of a JSON array's elements. -/
def stringifyArr : List JsonVal → String
  | [] => ""
  | [x] => stringify x
  | x :: rest => stringify x ++ "," ++ stringifyArr rest

/-- Comma-separated serialisation of a JSON object's fields. -/
def stringifyObj : List (String × JsonVal) → String
  | [] => ""
  | [(k, v)] => "\"" ++ k ++ "\":" ++ stringify v
  | (k, v) :: rest => "\"" ++ k ++ "\":" ++ stringify v ++ "," ++ stringifyObj rest

end

/-- First binding of a key in a JSON object's field list. -/
def lookupField : List (String × JsonVal) → String → Option JsonVal
  | [], _ => none
  | (k, v) :: rest, key => if k = key then some v else lookupField rest key

/-- JS property access `data.key`: `undefined` (`none`) unless `data` is an
object carrying the key. -/
def jsonLookup (v : JsonVal) (key : String) : Option JsonVal :=
  match v with
  | .obj fields => lookupField fields key
  | _ => none

/-- JS truthiness of a possibly-absent string: `undefined`/`null` and the
empty string are falsy. -/
def jsTruthyStr : Option String → Bool
  | none => false
  | some s => s != ""

/-- JS `a || b` for a possibly-absent number `a`: `undefined` and `0` fall
through to `b`. -/
def jsOrNum (a : Option ℚ) (b : ℚ) : ℚ :=
  match a with
  | some x => if x = 0 then b else x
  | none => b

/-! ## `waitForStreamReady` (lib/api.js)

One poll attempt's observable outcome is `none` when the `fetch` (or JSON
parse) threw, and `some b` when a response arrived whose `ready` field has
truthiness `b`.  The trace records the returned boolean, the number of
fetches made, and the delays awaited (in milliseconds), in order. -/

/-- Result trace of a `waitForStreamReady` run. -/
structure StreamReadyTrace where
  result : Bool
  attempts : Nat
  delays : List ℚ

/-- The polling loop of `waitForStreamReady`, starting at attempt number
`attempt` with `fuel` attempts remaining. -/
def wfsrGo (responses : Nat → Option Bool) (baseDelay : ℚ) :
    Nat → Nat → StreamReadyTrace
  | _, 0 => { result := false, attempts := 0, delays := [] }
  | attempt, fuel + 1 =>
    match responses attempt with
    | some true => { result := true, attempts := 1, delays := [] }
    | _ =>
      let rest := wfsrGo responses baseDelay (attempt + 1) fuel
      { result := rest.result
        attempts := rest.attempts + 1
        delays := baseDelay * (3 / 2 : ℚ) ^ attempt :: rest.delays }

/-- `waitForStreamReady(maxAttempts, baseDelay)` from `lib/api.js`. -/
def waitForStreamReady (responses : Nat → Option Bool) (maxAttempts : Nat)
    (baseDelay : ℚ) : StreamReadyTrace :=
  wfsrGo responses baseDelay 0 maxAttempts

/-- `waitForStreamReady()` invoked with its default parameters
(`maxAttempts = 10`, `baseDelay = 200`). -/
def waitForStreamReadyDefault (responses : Nat → Option Bool) : StreamReadyTrace :=
  waitForStreamReady responses 10 200

/-! ## `apiFetch` (lib/api.js)

An HTTP response is modelled by its `ok` flag, its status code, and the
outcome of `res.json()` (`none` when parsing the body throws). -/

/-- The parts of a `fetch` response that `apiFetch` inspects. -/
structure HttpResponse where
  ok : Bool
  status : Nat
  jsonBody : Option JsonVal

/-- What a call to `apiFetch` does: throw an `Error` with a message, reject
with the body-parse error (only possible on the ok path), or resolve to a
value (`none` models the JS `null` returned for 204). -/
inductive ApiResult where
  | thrown (message : String)
  | parseError
  | value (v : Option JsonVal)

/-- `apiFetch` from `lib/api.js`: on a non-ok response, throw an `Error`
whose message comes from the body's `detail` field; on 204 return `null`;
otherwise return the parsed JSON body. -/
def apiFetch (res : HttpResponse) : ApiResult :=
  if res.ok = false then
    let data := res.jsonBody.getD (.obj [])
    match jsonLookup data "detail" with
    | some (.str s) => .thrown s
    | some d => .thrown (stringify d)
    | none => .thrown ("Request failed: " ++ toString res.status)
  else if res.status = 204 then
    .value none
  else
    match res.jsonBody with
    | some v => .value (some v)
    | none => .parseError

/-! ## `tunerApi.tune` and `dabApi.tune` (lib/api.js) -/

/-- A request issued through `apiFetch`: method, endpoint (relative to
`API_BASE`), and the JSON object that is serialised as the body. -/
structure ApiRequest where
  method : String
  endpoint : String
  body : List (String × JsonVal)

/-- `tunerApi.tune(frequency, modulation)`. -/
def tunerApiTune (frequency : JsonVal) (modulation : String) : ApiRequest :=
  { method := "POST"
    endpoint := "/tuner/tune"
    body := [("frequency", frequency), ("modulation", .str modulation)] }

/-- `tunerApi.tune(frequency)` with the `modulation` parameter left to its
default `"wfm"`. -/
def tunerApiTuneDefault (frequency : JsonVal) : ApiRequest :=
  tunerApiTune frequency "wfm"

/-- `dabApi.tune(channel, program, serviceId)`. -/
def dabApiTune (channel program serviceId : JsonVal) : ApiRequest :=
  { method := "POST"
    endpoint := "/dab/tune"
    body := [("channel", channel), ("program", program), ("service_id", serviceId)] }

/-! ## `handleAddStation` (RadioApp) and `addDabProgram` (useStations) -/

/-- The new-station form state in `RadioApp` (`newStation`); the empty
string models an absent/empty (falsy) field. -/
structure NewStationForm where
  name : String
  type : String
  channel : String
  program : String
  frequency : String

/-- The station body posted to `POST /api/stations`.  `frequency` keeps the
raw form text (the code submits `parseFloat` of it); only presence matters
here. -/
structure StationData where
  name : String
  station_type : String
  frequency : Option String
  modulation : Option String
  dab_channel : Option String
  dab_program : Option String
  dab_service_id : Option String

/-- `handleAddStation` from `RadioApp`: `none` when validation rejects the
form before any request, `some body` when `stationsApi.create(body)` is
issued. -/
def handleAddStation (f : NewStationForm) : Option StationData :=
  if f.name = "" then none
  else if f.type = "dab" then
    if f.channel = "" then none
    else some
      { name := f.name
        station_type := "dab"
        frequency := none
        modulation := none
        dab_channel := some f.channel
        dab_program := some (if f.program = "" then f.name else f.program)
        dab_service_id := none }
  else
    if f.frequency = "" then none
    else some
      { name := f.name
        station_type := if f.type = "" then "fm" else f.type
        frequency := some f.frequency
        modulation := some "wfm"
        dab_channel := none
        dab_program := none
        dab_service_id := none }

/-- A DAB+ program found by a channel scan, as consumed by `addDabProgram`. -/
structure DabProgramScan where
  name : String
  channel : String
  service_id : String

/-- `addDabProgram` from `useStations`: the station body it submits via
`addStation`. -/
def addDabProgram (p : DabProgramScan) : StationData :=
  { name := p.name.trim
    station_type := "dab"
    frequency := none
    modulation := none
    dab_channel := some p.channel
    dab_program := some p.name.trim
    dab_service_id := some p.service_id }

/-! ## The document-title effect (RadioApp) -/

/-- The base document title used by `RadioApp`. -/
def baseTitle : String := "RTL-SDR Radio"

/-- The `document.title` computed by the `RadioApp` effect from the playing
flags, the DAB+ DLS text (`dabMetadata.metadata?.dls`) and the current
station's name (`currentStation?.name`). -/
def documentTitle (isPlaying isDABPlaying : Bool) (dls stationName : Option String) :
    String :=
  if isPlaying = false then baseTitle
  else if isDABPlaying && jsTruthyStr dls then dls.getD "" ++ " | " ++ baseTitle
  else if jsTruthyStr stationName then stationName.getD "" ++ " | " ++ baseTitle
  else baseTitle

/-! ## `handlePlay` (RadioApp)

The handler's effects are recorded in a `PlayOutcome`: the error it sets (if
any), the tune requests it issues, whether it delegates to the external
`playback.play()` path (which posts `/playback/start`), and whether a browser
audio element is created and started. -/

/-- The special speaker id for in-browser playback. -/
def BROWSER_SPEAKER_ID : String := "browser:local"

/-- A tune request issued by the browser-playback path of `handlePlay`. -/
inductive TuneCall where
  | dab (channel program serviceId : Option String)
  | fm (frequency : ℚ) (modulation : String)

/-- A saved station preset as seen by `handlePlay`. -/
structure Station where
  station_type : Option String
  frequency : Option ℚ
  dab_channel : Option String
  dab_program : Option String
  dab_service_id : Option String

/-- The environment of one `handlePlay` invocation: component state plus the
outcomes of the external calls it may make. -/
structure PlayEnv where
  selectedSpeaker : Option String
  station : Option Station
  selectedMode : String
  frequency : ℚ
  tuneOutcome : TuneCall → Option String
  playbackStartOutcome : Option String
  responses : Nat → Option Bool

/-- The observable effects of one `handlePlay` invocation. -/
structure PlayOutcome where
  error : Option String
  tuneCalls : List TuneCall
  playbackStartIssued : Bool
  audioCreated : Bool

/-- The browser-playback path of `handlePlay` after the tune request has been
chosen: await the tune, poll `/stream/ready` with the default backoff, and
only then create and start the audio element. -/
def playAfterTune (env : PlayEnv) (call : TuneCall) : PlayOutcome :=
  match env.tuneOutcome call with
  | some msg =>
    { error := some msg, tuneCalls := [call]
      playbackStartIssued := false, audioCreated := false }
  | none =>
    if (waitForStreamReadyDefault env.responses).result then
      { error := none, tuneCalls := [call]
        playbackStartIssued := false, audioCreated := true }
    else
      { error := some "Stream not ready. Please try again.", tuneCalls := [call]
        playbackStartIssued := false, audioCreated := false }

/-- `handlePlay` from `RadioApp` (with `station` already resolved from
`stationOverride || currentStation`). -/
def handlePlay (env : PlayEnv) : PlayOutcome :=
  if jsTruthyStr env.selectedSpeaker = false then
    { error := some "Please select a speaker", tuneCalls := []
      playbackStartIssued := false, audioCreated := false }
  else if env.selectedSpeaker = some BROWSER_SPEAKER_ID then
    match env.station with
    | some st =>
      if st.station_type = some "dab" then
        playAfterTune env (.dab st.dab_channel st.dab_program st.dab_service_id)
      else
        playAfterTune env (.fm (jsOrNum st.frequency env.frequency) "wfm")
    | none =>
      if env.selectedMode = "fm" then
        playAfterTune env (.fm env.frequency "wfm")
      else
        { error := some "Please select a DAB+ station to play", tuneCalls := []
          playbackStartIssued := false, audioCreated := false }
  else
    { error := env.playbackStartOutcome, tuneCalls := []
      playbackStartIssued := true, audioCreated := false }

/-! ## `useDABMetadata` (hooks)

The hook's effect is modelled as a transition system over the events it
reacts to: `isDABPlaying` becoming true (which fetches immediately and arms
the 5-second interval), an interval tick, and `isDABPlaying` becoming false
(which clears the metadata).  A fetch outcome of `none` models a failed
`dabApi.metadata()` call, which leaves the held metadata unchanged. -/

/-- Events driving the `useDABMetadata` effect. -/
inductive DabMetaEvent where
  | start (fetched : Option JsonVal)
  | tick (fetched : Option JsonVal)
  | stop

/-- The state held by `useDABMetadata`. -/
structure DabMetaState where
  active : Bool
  metadata : Option JsonVal

/-- Initial hook state: not playing DAB+, `metadata` is `null`. -/
def dabMetaInit : DabMetaState := { active := false, metadata := none }

/-- One transition of the `useDABMetadata` effect. -/
def dabMetaStep (s : DabMetaState) (e : DabMetaEvent) : DabMetaState :=
  match e with
  | .start fetched =>
    { active := true
      metadata := match fetched with | some m => some m | none => s.metadata }
  | .tick fetched =>
    if s.active then
      { s with metadata := match fetched with | some m => some m | none => s.metadata }
    else s
  | .stop => { active := false, metadata := none }

/-- Run the `useDABMetadata` effect over a sequence of events. -/
def dabMetaRun (s : DabMetaState) (evs : List DabMetaEvent) : DabMetaState :=
  evs.foldl dabMetaStep s

/-- The metadata poll interval armed while DAB+ is playing (milliseconds). -/
def dabMetadataPollIntervalMs : Nat := 5000

/-! ## Mute toggle (BottomBar) -/

/-- The volume-related state around `BottomBar`: the parent's `volume` (set
through `onVolumeChange`) plus the bar's local `isMuted` and `prevVolume`. -/
structure BarState where
  volume : ℚ
  isMuted : Bool
  prevVolume : ℚ

/-- `handleMuteToggle` from `BottomBar`. -/
def handleMuteToggle (s : BarState) : BarState :=
  if s.isMuted then
    { s with volume := s.prevVolume, isMuted := false }
  else
    { volume := 0, isMuted := true, prevVolume := s.volume }

/-- `handleVolumeChange` from `BottomBar` (the slider drag handler), applied
to the dragged value `v`. -/
def handleVolumeChange (s : BarState) (v : ℚ) : BarState :=
  { s with
    volume := v
    isMuted := if 0 < v ∧ s.isMuted = true then false else s.isMuted }

/-! ## `SignalQuality` (player) -/

/-- The `signal` object rendered by `SignalQuality`; `none` models a
missing/undefined or `null` field. -/
structure SignalInfo where
  fic_quality : Option ℚ
  snr : Option ℚ

/-- `quality = signal.fic_quality || 0`. -/
def SignalInfo.quality (s : SignalInfo) : ℚ := s.fic_quality.getD 0

/-- Whether bar number `bar` is lit: `quality >= bar * 20`. -/
def signalBarActive (s : SignalInfo) (bar : Nat) : Bool :=
  decide ((bar : ℚ) * 20 ≤ s.quality)

/-- The number of lit bars among bars 1 to 5. -/
def signalLitBars (s : SignalInfo) : Nat :=
  ([1, 2, 3, 4, 5] : List Nat).countP (signalBarActive s)

/-- Whether the SNR value is rendered: `snr !== null && snr !== undefined`. -/
def snrShown (s : SignalInfo) : Bool := s.snr.isSome

/-! ## Lemmas about the polling loop -/

theorem wfsrGo_attempts_le (r : Nat → Option Bool) (d : ℚ) (a fuel : Nat) :
    (wfsrGo r d a fuel).attempts ≤ fuel := by
  induction fuel generalizing a with
  | zero => simp [wfsrGo]
  | succ n ih =>
    cases h : r a with
    | none =>
      simp only [wfsrGo, h]
      exact Nat.succ_le_succ (ih (a + 1))
    | some b =>
      cases b with
      | true => simp [wfsrGo, h]
      | false =>
        simp only [wfsrGo, h]
        exact Nat.succ_le_succ (ih (a + 1))

theorem wfsrGo_result_iff (r : Nat → Option Bool) (d : ℚ) (a fuel : Nat) :
    (wfsrGo r d a fuel).result = true ↔ ∃ k, k < fuel ∧ r (a + k) = some true := by
  induction fuel generalizing a with
  | zero => simp [wfsrGo]
  | succ n ih =>
    have shift : (∃ k, k < n ∧ r (a + 1 + k) = some true) ↔
        (∃ k, 0 < k ∧ k < n + 1 ∧ r (a + k) = some true) := by
      constructor
      · rintro ⟨k, hk, hrk⟩
        refine ⟨k + 1, by omega, by omega, ?_⟩
        have : a + (k + 1) = a + 1 + k := by omega
        rw [this]; exact hrk
      · rintro ⟨k, hk0, hk, hrk⟩
        obtain ⟨j, rfl⟩ : ∃ j, k = j + 1 := ⟨k - 1, by omega⟩
        refine ⟨j, by omega, ?_⟩
        have : a + 1 + j = a + (j + 1) := by omega
        rw [this]; exact hrk
    cases h : r a with
    | none =>
      simp only [wfsrGo, h]
      rw [ih (a + 1), shift]
      constructor
      · rintro ⟨k, hk0, hk, hrk⟩; exact ⟨k, hk, hrk⟩
      · rintro ⟨k, hk, hrk⟩
        rcases Nat.eq_zero_or_pos k with rfl | hpos
        · rw [Nat.add_zero] at hrk; rw [hrk] at h; cases h
        · exact ⟨k, hpos, hk, hrk⟩
    | some b =>
      cases b with
      | true =>
        simp only [wfsrGo, h]
        constructor
        · intro _; exact ⟨0, by omega, by rw [Nat.add_zero]; exact h⟩
        · intro _; trivial
      | false =>
        simp only [wfsrGo, h]
        rw [ih (a + 1), shift]
        constructor
        · rintro ⟨k, hk0, hk, hrk⟩; exact ⟨k, hk, hrk⟩
        · rintro ⟨k, hk, hrk⟩
          rcases Nat.eq_zero_or_pos k with rfl | hpos
          · rw [Nat.add_zero] at hrk; rw [hrk] at h; cases h
          · exact ⟨k, hpos, hk, hrk⟩

theorem wfsrGo_delays_eq (r : Nat → Option Bool) (d : ℚ) (a fuel : Nat) :
    (wfsrGo r d a fuel).delays =
      (List.range (wfsrGo r d a fuel).delays.length).map
        (fun i => d * (3 / 2 : ℚ) ^ (a + i)) := by
  induction fuel generalizing a with
  | zero => simp [wfsrGo]
  | succ n ih =>
    have step : ∀ m : Nat,
        (List.range (m + 1)).map (fun i => d * (3 / 2 : ℚ) ^ (a + i)) =
          d * (3 / 2 : ℚ) ^ a ::
            (List.range m).map (fun i => d * (3 / 2 : ℚ) ^ (a + 1 + i)) := by
      intro m
      rw [List.range_succ_eq_map, List.map_cons, List.map_map]
      refine congrArg₂ _ (by norm_num) ?_
      refine List.map_congr_left ?_
      intro i _
      show d * (3 / 2 : ℚ) ^ (a + (i + 1)) = d * (3 / 2 : ℚ) ^ (a + 1 + i)
      have : a + (i + 1) = a + 1 + i := by omega
      rw [this]
    cases h : r a with
    | none =>
      simp only [wfsrGo, h, List.length_cons]
      rw [step]
      exact congrArg (List.cons _) (ih (a + 1))
    | some b =>
      cases b with
      | true => simp [wfsrGo, h]
      | false =>
        simp only [wfsrGo, h, List.length_cons]
        rw [step]
        exact congrArg (List.cons _) (ih (a + 1))

theorem wfsrGo_exhaust (r : Nat → Option Bool) (d : ℚ) (a fuel : Nat)
    (h : ∀ k, k < fuel → r (a + k) ≠ some true) :
    (wfsrGo r d a fuel).result = false ∧ (wfsrGo r d a fuel).attempts = fuel ∧
      (wfsrGo r d a fuel).delays.length = fuel := by
  induction fuel generalizing a with
  | zero => simp [wfsrGo]
  | succ n ih =>
    have h0 : r a ≠ some true := by
      have := h 0 (by omega); rwa [Nat.add_zero] at this
    have hshift : ∀ k, k < n → r (a + 1 + k) ≠ some true := by
      intro k hk
      have := h (k + 1) (by omega)
      have heq : a + (k + 1) = a + 1 + k := by omega
      rwa [heq] at this
    cases hr : r a with
    | none =>
      simp only [wfsrGo, hr]
      obtain ⟨h1, h2, h3⟩ := ih (a + 1) hshift
      exact ⟨h1, by rw [h2], by simpa using h3⟩
    | some b =>
      cases b with
      | true => exact absurd hr h0
      | false =>
        simp only [wfsrGo, hr]
        obtain ⟨h1, h2, h3⟩ := ih (a + 1) hshift
        exact ⟨h1, by rw [h2], by simpa using h3⟩

theorem wfsrGo_first_true (r : Nat → Option Bool) (d : ℚ) (a fuel k : Nat)
    (hk : k < fuel) (hr : r (a + k) = some true)
    (hmin : ∀ j, j < k → r (a + j) ≠ some true) :
    (wfsrGo r d a fuel).result = true ∧ (wfsrGo r d a fuel).attempts = k + 1 ∧
      (wfsrGo r d a fuel).delays.length = k := by
  induction fuel generalizing a k with
  | zero => omega
  | succ n ih =>
    cases k with
    | zero =>
      rw [Nat.add_zero] at hr
      simp [wfsrGo, hr]
    | succ j =>
      have h0 : r a ≠ some true := by
        have := hmin 0 (by omega); rwa [Nat.add_zero] at this
      have hr1 : r (a + 1 + j) = some true := by
        have heq : a + (j + 1) = a + 1 + j := by omega
        rwa [heq] at hr
      have hmin1 : ∀ i, i < j → r (a + 1 + i) ≠ some true := by
        intro i hi
        have := hmin (i + 1) (by omega)
        have heq : a + (i + 1) = a + 1 + i := by omega
        rwa [heq] at this
      cases hcase : r a with
      | none =>
        simp only [wfsrGo, hcase]
        obtain ⟨h1, h2, h3⟩ := ih (a + 1) j (by omega) hr1 hmin1
        exact ⟨h1, by rw [h2], by simpa using h3⟩
      | some b =>
        cases b with
        | true => exact absurd hcase h0
        | false =>
          simp only [wfsrGo, hcase]
          obtain ⟨h1, h2, h3⟩ := ih (a + 1) j (by omega) hr1 hmin1
          exact ⟨h1, by rw [h2], by simpa using h3⟩

/-! ## Claim theorems -/

/-- Claim C1: every invocation of the stream-readiness poll with its default
parameters makes at most 10 fetches against `/stream/ready`, returns `true`
exactly when some attempt among the first 10 observes `ready == true` (and
then stops at the first such attempt, having slept once per completed
not-ready attempt), returns `false` when all attempts are exhausted (a failed
fetch counting the same as a not-ready response), and the delay slept after
0-based attempt `i` is `200 * 1.5 ^ i` milliseconds. -/
theorem claimC1_waitForStreamReady (responses : Nat → Option Bool) :
    (waitForStreamReadyDefault responses).attempts ≤ 10 ∧
    ((waitForStreamReadyDefault responses).result = true ↔
      ∃ k, k < 10 ∧ responses k = some true) ∧
    ((∀ k, k < 10 → responses k ≠ some true) →
      (waitForStreamReadyDefault responses).result = false ∧
      (waitForStreamReadyDefault responses).attempts = 10 ∧
      (waitForStreamReadyDefault responses).delays.length = 10) ∧
    (∀ k, k < 10 → responses k = some true → (∀ j, j < k → responses j ≠ some true) →
      (waitForStreamReadyDefault responses).result = true ∧
      (waitForStreamReadyDefault responses).attempts = k + 1 ∧
      (waitForStreamReadyDefault responses).delays.length = k) ∧
    (waitForStreamReadyDefault responses).delays =
      (List.range (waitForStreamReadyDefault responses).delays.length).map
        (fun i => (200 : ℚ) * (3 / 2) ^ i) := by
  unfold waitForStreamReadyDefault waitForStreamReady
  refine ⟨wfsrGo_attempts_le responses 200 0 10, ?_, ?_, ?_, ?_⟩
  · rw [wfsrGo_result_iff]
    simp
  · intro hnone
    exact wfsrGo_exhaust responses 200 0 10 (by simpa using hnone)
  · intro k hk hrk hmin
    exact wfsrGo_first_true responses 200 0 10 k hk (by simpa using hrk)
      (by simpa using hmin)
  · have := wfsrGo_delays_eq responses 200 0 10
    simpa using this

/-- Concrete run of claim C1: with `ready` first observed true on attempt 3,
the poll stops after 4 fetches and 3 sleeps. -/
theorem claimC1_witness :
    (waitForStreamReadyDefault
        (fun k => if k = 3 then some true else some false)).result = true ∧
    (waitForStreamReadyDefault
        (fun k => if k = 3 then some true else some false)).attempts = 4 ∧
    (waitForStreamReadyDefault
        (fun k => if k = 3 then some true else some false)).delays.length = 3 :=
  (claimC1_waitForStreamReady
      (fun k => if k = 3 then some true else some false)).2.2.2.1 3
    (by decide) (by decide) (by decide)

/-- Claim C2 counterexample: the add-station form handler accepts a DAB
station that has a name and a channel but no service id, and submits it: the
constructed preset carries `dab_channel` but `dab_service_id` is absent, so a
DAB preset does not necessarily carry both a channel and a service id. -/
theorem claimC2_counterexample :
    handleAddStation
        { name := "ABC Radio", type := "dab", channel := "9C", program := "",
          frequency := "" } =
      some
        { name := "ABC Radio", station_type := "dab", frequency := none,
          modulation := none, dab_channel := some "9C",
          dab_program := some "ABC Radio", dab_service_id := none } := by
  rfl

/-- Claim C2 (amended): every FM/AM station body constructed by the client
carries a frequency and the modulation `"wfm"`; every DAB station body
carries a channel and a program name, and forms missing the name, the
frequency (FM) or the channel (DAB) are rejected before any request is
submitted — but only presets created from scan results (`addDabProgram`)
additionally carry a `dab_service_id`; the manual add-station form submits
DAB presets without one. -/
theorem claimC2_mode_invariant (f : NewStationForm) (s : StationData)
    (p : DabProgramScan) :
    (handleAddStation f = some s → s.station_type ≠ "dab" →
      s.frequency.isSome = true ∧ s.modulation = some "wfm") ∧
    (handleAddStation f = some s → s.station_type = "dab" →
      s.dab_channel.isSome = true ∧ s.dab_program.isSome = true ∧
      s.dab_channel ≠ some "" ∧ s.dab_service_id = none) ∧
    (f.name = "" → handleAddStation f = none) ∧
    (f.type = "dab" → f.channel = "" → handleAddStation f = none) ∧
    (f.type ≠ "dab" → f.frequency = "" → handleAddStation f = none) ∧
    ((addDabProgram p).dab_channel = some p.channel ∧
      (addDabProgram p).dab_program = some p.name.trim ∧
      (addDabProgram p).dab_service_id = some p.service_id) := by
  refine ⟨?_, ?_, ?_, ?_, ?_, rfl, rfl, rfl⟩
  · intro hsome hnd
    unfold handleAddStation at hsome
    split_ifs at hsome <;>
      first
        | exact Option.noConfusion hsome
        | (obtain rfl := Option.some.inj hsome; simp_all)
  · intro hsome hd
    unfold handleAddStation at hsome
    split_ifs at hsome <;>
      first
        | exact Option.noConfusion hsome
        | (obtain rfl := Option.some.inj hsome; simp_all)
  · intro h
    simp [handleAddStation, h]
  · intro ht hc
    simp [handleAddStation, ht, hc]
  · intro ht hf
    simp [handleAddStation, ht, hf]

/-- Concrete run of claim C2 (amended): a valid FM form produces a body with
a frequency and modulation `"wfm"`. -/
theorem claimC2_witness :
    (handleAddStation
          { name := "Triple J", type := "fm", channel := "", program := "",
            frequency := "105.7" } =
        some
          { name := "Triple J", station_type := "fm",
            frequency := some "105.7", modulation := some "wfm",
            dab_channel := none, dab_program := none,
            dab_service_id := none }) ∧
    ({ name := "Triple J", station_type := "fm", frequency := some "105.7",
        modulation := some "wfm", dab_channel := none, dab_program := none,
        dab_service_id := none } : StationData).frequency.isSome = true ∧
    ({ name := "Triple J", station_type := "fm", frequency := some "105.7",
        modulation := some "wfm", dab_channel := none, dab_program := none,
        dab_service_id := none } : StationData).modulation = some "wfm" :=
  ⟨rfl,
    (claimC2_mode_invariant
        { name := "Triple J", type := "fm", channel := "", program := "",
          frequency := "105.7" }
        { name := "Triple J", station_type := "fm", frequency := some "105.7",
          modulation := some "wfm", dab_channel := none, dab_program := none,
          dab_service_id := none }
        { name := "X", channel := "9C", service_id := "0x1" }).1
      rfl (by decide)⟩

/-- Claim C3: while playback is active the document title prefers the DAB+
DLS text (when a DAB+ session is active and the DLS is non-empty), then the
current station's name (when non-empty), then the bare base title; and when
no DAB+ session is active the title does not depend on the DLS text at
all. -/
theorem claimC3_documentTitle (isDABPlaying : Bool) (dls stationName : Option String) :
    (isDABPlaying = true → jsTruthyStr dls = true →
      documentTitle true isDABPlaying dls stationName =
        dls.getD "" ++ " | " ++ baseTitle) ∧
    ((isDABPlaying = false ∨ jsTruthyStr dls = false) →
      jsTruthyStr stationName = true →
      documentTitle true isDABPlaying dls stationName =
        stationName.getD "" ++ " | " ++ baseTitle) ∧
    ((isDABPlaying = false ∨ jsTruthyStr dls = false) →
      jsTruthyStr stationName = false →
      documentTitle true isDABPlaying dls stationName = baseTitle) ∧
    (isDABPlaying = false →
      documentTitle true isDABPlaying dls stationName =
        documentTitle true isDABPlaying none stationName) := by
  refine ⟨?_, ?_, ?_, ?_⟩
  · intro hD hT
    simp [documentTitle, hD, hT]
  · intro hOr hT
    rcases hOr with h | h <;> simp [documentTitle, h, hT]
  · intro hOr hF
    rcases hOr with h | h <;> simp [documentTitle, h, hF]
  · intro hD
    simp [documentTitle, hD, jsTruthyStr]

/-- Concrete run of claim C3: with an active DAB+ session and DLS text
present, the title shows the DLS text. -/
theorem claimC3_witness :
    documentTitle true true (some "Song - Artist") (some "StationX") =
      (some "Song - Artist").getD "" ++ " | " ++ baseTitle :=
  (claimC3_documentTitle true (some "Song - Artist") (some "StationX")).1
    rfl (by decide)

/-- Claim C4: when the browser-playback path reaches the readiness poll (a
speaker is the browser, a tune target exists, the tune call succeeds) and the
poll exhausts its 10 attempts without observing `ready == true`, `handlePlay`
fails with the user-visible error `"Stream not ready. Please try again."`,
and no audio element is created or started for that attempt. -/
theorem claimC4_streamNotReady (env : PlayEnv)
    (hspk : env.selectedSpeaker = some BROWSER_SPEAKER_ID)
    (htune : ∀ c, env.tuneOutcome c = none)
    (htarget : env.station.isSome = true ∨ env.selectedMode = "fm")
    (hready : ∀ k, k < 10 → env.responses k ≠ some true) :
    (handlePlay env).error = some "Stream not ready. Please try again." ∧
    (handlePlay env).audioCreated = false ∧
    (handlePlay env).playbackStartIssued = false := by
  have hfalse : (waitForStreamReadyDefault env.responses).result = false :=
    (wfsrGo_exhaust env.responses 200 0 10 (by simpa using hready)).1
  have htruthy : jsTruthyStr env.selectedSpeaker = true := by
    rw [hspk]; rfl
  unfold handlePlay
  cases hst : env.station with
  | some st =>
    by_cases hd : st.station_type = some "dab" <;>
      simp [htruthy, hspk, hd, playAfterTune, htune, hfalse, jsTruthyStr,
        BROWSER_SPEAKER_ID]
  | none =>
    rcases htarget with ha | ha
    · rw [hst] at ha
      exact absurd ha (by simp)
    · simp [htruthy, hspk, ha, playAfterTune, htune, hfalse, jsTruthyStr,
        BROWSER_SPEAKER_ID]

/-- Concrete run of claim C4: browser speaker, a DAB station, successful
tune, and a poll that never sees `ready == true`. -/
theorem claimC4_witness :
    (handlePlay
        { selectedSpeaker := some BROWSER_SPEAKER_ID
          station := some
            { station_type := some "dab", frequency := none,
              dab_channel := some "9C", dab_program := some "ABC",
              dab_service_id := some "0x1" }
          selectedMode := "dab"
          frequency := 1011 / 10
          tuneOutcome := fun _ => none
          playbackStartOutcome := none
          responses := fun _ => some false }).error =
      some "Stream not ready. Please try again." ∧
    (handlePlay
        { selectedSpeaker := some BROWSER_SPEAKER_ID
          station := some
            { station_type := some "dab", frequency := none,
              dab_channel := some "9C", dab_program := some "ABC",
              dab_service_id := some "0x1" }
          selectedMode := "dab"
          frequency := 1011 / 10
          tuneOutcome := fun _ => none
          playbackStartOutcome := none
          responses := fun _ => some false }).audioCreated = false :=
  have h :=
    claimC4_streamNotReady
      { selectedSpeaker := some BROWSER_SPEAKER_ID
        station := some
          { station_type := some "dab", frequency := none,
            dab_channel := some "9C", dab_program := some "ABC",
            dab_service_id := some "0x1" }
        selectedMode := "dab"
        frequency := 1011 / 10
        tuneOutcome := fun _ => none
        playbackStartOutcome := none
        responses := fun _ => some false }
      rfl (fun _ => rfl) (Or.inl rfl) (by decide)
  ⟨h.1, h.2.1⟩

/-- Claim C5: a play invocation with no (falsy) selected speaker fails
immediately with the error `"Please select a speaker"` and performs nothing
else: no tune request, no playback-start request, no audio element. -/
theorem claimC5_noSpeaker (env : PlayEnv)
    (h : jsTruthyStr env.selectedSpeaker = false) :
    handlePlay env =
      { error := some "Please select a speaker", tuneCalls := []
        playbackStartIssued := false, audioCreated := false } := by
  unfold handlePlay
  rw [h]
  simp

/-- Concrete run of claim C5: no speaker selected. -/
theorem claimC5_witness :
    handlePlay
        { selectedSpeaker := none
          station := none
          selectedMode := "dab"
          frequency := 1011 / 10
          tuneOutcome := fun _ => none
          playbackStartOutcome := none
          responses := fun _ => some true } =
      { error := some "Please select a speaker", tuneCalls := []
        playbackStartIssued := false, audioCreated := false } :=
  claimC5_noSpeaker
    { selectedSpeaker := none
      station := none
      selectedMode := "dab"
      frequency := 1011 / 10
      tuneOutcome := fun _ => none
      playbackStartOutcome := none
      responses := fun _ => some true }
    rfl

/-- Claim C6: an FM tune posts exactly `(frequency, modulation)` to
`/tuner/tune` with the modulation parameter defaulting to `"wfm"`, and a DAB
tune posts exactly `(channel, program, service_id)` to `/dab/tune`, the
caller's arguments mapped to those fields unchanged. -/
theorem claimC6_tuneRequests (f c p sid : JsonVal) (m : String) :
    tunerApiTune f m =
      { method := "POST", endpoint := "/tuner/tune",
        body := [("frequency", f), ("modulation", .str m)] } ∧
    tunerApiTuneDefault f = tunerApiTune f "wfm" ∧
    dabApiTune c p sid =
      { method := "POST", endpoint := "/dab/tune",
        body := [("channel", c), ("program", p), ("service_id", sid)] } :=
  ⟨rfl, rfl, rfl⟩

theorem dabMetaStep_preserves (s : DabMetaState) (e : DabMetaEvent)
    (hs : s.active = false → s.metadata = none) :
    (dabMetaStep s e).active = false → (dabMetaStep s e).metadata = none := by
  cases e with
  | start fetched => simp [dabMetaStep]
  | tick fetched =>
    cases ha : s.active with
    | true => simp [dabMetaStep, ha]
    | false => simpa [dabMetaStep, ha] using hs
  | stop => simp [dabMetaStep]

theorem dabMetaRun_preserves (evs : List DabMetaEvent) (s : DabMetaState)
    (hs : s.active = false → s.metadata = none) :
    (dabMetaRun s evs).active = false → (dabMetaRun s evs).metadata = none := by
  induction evs generalizing s with
  | nil => exact hs
  | cons e rest ih => exact ih (dabMetaStep s e) (dabMetaStep_preserves s e hs)

/-- Claim C7: while a DAB+ session is active the metadata snapshot is
fetched immediately on session start and then on a fixed 5000 ms interval;
a session-end event clears the held metadata to `null`, and in every
reachable state in which no DAB+ session is active the held metadata is
`null` — metadata from an ended session is never retained. -/
theorem claimC7_dabMetadataLifecycle :
    (∀ evs : List DabMetaEvent, (dabMetaRun dabMetaInit evs).active = false →
      (dabMetaRun dabMetaInit evs).metadata = none) ∧
    (∀ (s : DabMetaState) (m : JsonVal),
      (dabMetaStep s (.start (some m))).metadata = some m ∧
      (dabMetaStep s (.start (some m))).active = true) ∧
    (∀ (s : DabMetaState) (m : JsonVal), s.active = true →
      (dabMetaStep s (.tick (some m))).metadata = some m) ∧
    (∀ s : DabMetaState, dabMetaStep s .stop =
      { active := false, metadata := none }) ∧
    dabMetadataPollIntervalMs = 5000 := by
  refine ⟨?_, fun s m => ⟨rfl, rfl⟩, ?_, fun s => rfl, rfl⟩
  · intro evs
    exact dabMetaRun_preserves evs dabMetaInit (fun _ => rfl)
  · intro s m ha
    simp [dabMetaStep, ha]

/-- Concrete run of claim C7: after a start, a tick, and a stop, the held
metadata is cleared. -/
theorem claimC7_witness :
    (dabMetaRun dabMetaInit
        [.start (some (.str "a")), .tick (some (.str "b")), .stop]).metadata =
      none :=
  claimC7_dabMetadataLifecycle.1
    [.start (some (.str "a")), .tick (some (.str "b")), .stop] rfl

theorem apiFetch_not_ok (res : HttpResponse) (hok : res.ok = false) :
    apiFetch res =
      (match jsonLookup (res.jsonBody.getD (.obj [])) "detail" with
        | some (.str s) => .thrown s
        | some d => .thrown (stringify d)
        | none => .thrown ("Request failed: " ++ toString res.status)) := by
  unfold apiFetch
  rw [hok]
  simp

/-- Claim C8: on a non-ok response `apiFetch` throws an `Error` whose
message is the body's `detail` field when that field is a string, the
JSON-serialised `detail` when present but not a string, and
`"Request failed: <status>"` when `detail` is absent (including when the
body fails to parse) — and it never resolves to a value; an ok 204 response
resolves to `null`; every other ok response resolves to the parsed JSON
body. -/
theorem claimC8_apiFetch (res : HttpResponse) (s : String) (d v : JsonVal) :
    (res.ok = false →
      jsonLookup (res.jsonBody.getD (.obj [])) "detail" = some (.str s) →
      apiFetch res = .thrown s) ∧
    (res.ok = false →
      jsonLookup (res.jsonBody.getD (.obj [])) "detail" = some d →
      (∀ t, d ≠ .str t) → apiFetch res = .thrown (stringify d)) ∧
    (res.ok = false →
      jsonLookup (res.jsonBody.getD (.obj [])) "detail" = none →
      apiFetch res = .thrown ("Request failed: " ++ toString res.status)) ∧
    (res.ok = false → ∀ w, apiFetch res ≠ .value w) ∧
    (res.ok = true → res.status = 204 → apiFetch res = .value none) ∧
    (res.ok = true → res.status ≠ 204 → res.jsonBody = some v →
      apiFetch res = .value (some v)) := by
  refine ⟨?_, ?_, ?_, ?_, ?_, ?_⟩
  · intro hok hl
    rw [apiFetch_not_ok res hok, hl]
  · intro hok hl hns
    rw [apiFetch_not_ok res hok, hl]
    cases d with
    | str t => exact absurd rfl (hns t)
    | nul => rfl
    | boolean b => rfl
    | num q => rfl
    | arr elems => rfl
    | obj fields => rfl
  · intro hok hl
    rw [apiFetch_not_ok res hok, hl]
  · intro hok w
    rw [apiFetch_not_ok res hok]
    cases hl : jsonLookup (res.jsonBody.getD (.obj [])) "detail" with
    | none => simp
    | some d => cases d <;> simp
  · intro hok h204
    simp [apiFetch, hok, h204]
  · intro hok h204 hbody
    simp [apiFetch, hok, h204, hbody]

/-- Concrete runs of claim C8: a string detail becomes the error message; a
missing detail falls back to the status message; 204 resolves to `null`. -/
theorem claimC8_witness :
    apiFetch
        { ok := false, status := 500,
          jsonBody := some (.obj [("detail", .str "Failed to tune")]) } =
      .thrown "Failed to tune" ∧
    apiFetch { ok := false, status := 502, jsonBody := none } =
      .thrown ("Request failed: " ++ toString (502 : Nat)) ∧
    apiFetch { ok := true, status := 204, jsonBody := none } = .value none :=
  ⟨(claimC8_apiFetch
        { ok := false, status := 500,
          jsonBody := some (.obj [("detail", .str "Failed to tune")]) }
        "Failed to tune" .nul .nul).1 rfl rfl,
    (claimC8_apiFetch { ok := false, status := 502, jsonBody := none }
        "" .nul .nul).2.2.1 rfl rfl,
    (claimC8_apiFetch { ok := true, status := 204, jsonBody := none }
        "" .nul .nul).2.2.2.2.1 rfl rfl⟩

/-- Claim C9: mute is a volume-preserving round trip: toggling mute while
unmuted drives the volume to 0 and saves the previous volume, toggling
again restores exactly that volume; dragging the slider to a positive value
while muted clears the muted flag. -/
theorem claimC9_muteRoundTrip (s : BarState) (v : ℚ) :
    (s.isMuted = false →
      (handleMuteToggle s).volume = 0 ∧
      (handleMuteToggle s).isMuted = true ∧
      (handleMuteToggle s).prevVolume = s.volume ∧
      (handleMuteToggle (handleMuteToggle s)).volume = s.volume ∧
      (handleMuteToggle (handleMuteToggle s)).isMuted = false) ∧
    (s.isMuted = true → 0 < v →
      (handleVolumeChange s v).isMuted = false ∧
      (handleVolumeChange s v).volume = v) := by
  constructor
  · intro h
    simp [handleMuteToggle, h]
  · intro h hv
    simp [handleVolumeChange, h, hv]

/-- Concrete run of claim C9: muting from volume 3/4 and unmuting restores
3/4. -/
theorem claimC9_witness :
    (handleMuteToggle { volume := 3 / 4, isMuted := false, prevVolume := 0 }).volume
        = 0 ∧
    (handleMuteToggle
        (handleMuteToggle
          { volume := 3 / 4, isMuted := false, prevVolume := 0 })).volume =
      3 / 4 :=
  have h :=
    (claimC9_muteRoundTrip { volume := 3 / 4, isMuted := false, prevVolume := 0 }
        1).1 rfl
  ⟨h.1, h.2.2.2.1⟩

theorem signalLitBars_eq (s : SignalInfo) :
    signalLitBars s =
      if 100 ≤ s.quality then 5
      else if 80 ≤ s.quality then 4
      else if 60 ≤ s.quality then 3
      else if 40 ≤ s.quality then 2
      else if 20 ≤ s.quality then 1
      else 0 := by
  unfold signalLitBars signalBarActive
  simp only [List.countP_cons, List.countP_nil, decide_eq_true_eq]
  norm_num
  split_ifs <;> first | rfl | omega | linarith

/-- Claim C10: bar `b` is lit exactly when `fic_quality >= 20 * b` (with a
missing quality read as 0), so the number of lit bars is monotone in the
quality, is 0 below 20, and — within the documented 0–100 range — all five
bars are lit exactly at quality 100; the SNR value is shown exactly when
`snr` is present. -/
theorem claimC10_signalQuality (s s2 : SignalInfo) (b : Nat) :
    (1 ≤ b → b ≤ 5 →
      (signalBarActive s b = true ↔ (b : ℚ) * 20 ≤ s.fic_quality.getD 0)) ∧
    (s.quality ≤ s2.quality → signalLitBars s ≤ signalLitBars s2) ∧
    (s.quality < 20 → signalLitBars s = 0) ∧
    (s.quality ≤ 100 → (signalLitBars s = 5 ↔ s.quality = 100)) ∧
    (s.fic_quality = none →
      signalLitBars s = signalLitBars { fic_quality := some 0, snr := s.snr }) ∧
    (snrShown s = true ↔ s.snr ≠ none) := by
  refine ⟨?_, ?_, ?_, ?_, ?_, ?_⟩
  · intro _ _
    simp [signalBarActive, SignalInfo.quality]
  · intro h
    unfold signalLitBars
    refine List.countP_mono_left ?_
    intro a _ hp
    simp only [signalBarActive, decide_eq_true_eq] at hp ⊢
    linarith
  · intro h
    rw [signalLitBars_eq]
    split_ifs <;> first | rfl | linarith
  · intro h
    rw [signalLitBars_eq]
    split_ifs <;> constructor <;> intro hh <;> first | contradiction | linarith
  · intro h
    simp [signalLitBars, signalBarActive, SignalInfo.quality, h]
  · simp [snrShown, Option.isSome_iff_ne_none]

/-- Concrete run of claim C10: quality 60 lights no more bars than quality
80, and quality 60 lights bar 3. -/
theorem claimC10_witness :
    signalLitBars { fic_quality := some 60, snr := some 5 } ≤
      signalLitBars { fic_quality := some 80, snr := none } ∧
    (signalBarActive { fic_quality := some 60, snr := some 5 } 3 = true ↔
      ((3 : Nat) : ℚ) * 20 ≤ (some (60 : ℚ)).getD 0) :=
  ⟨(claimC10_signalQuality { fic_quality := some 60, snr := some 5 }
        { fic_quality := some 80, snr := none } 3).2.1
      (by norm_num [SignalInfo.quality]),
    (claimC10_signalQuality { fic_quality := some 60, snr := some 5 }
        { fic_quality := some 80, snr := none } 3).1 (by norm_num) (by norm_num)⟩
